import Mathlib

/-!
Shallow embedding of the thlog core: the three incremental parsers from
src/parse.c and the stream-reconstruction loop (processData) and template
renderer (printData) from src/thlog.c.

Modelling conventions: C `float` values are modelled as exact rationals
(so floating-point rounding is idealised away); `unsigned long` and
`unsigned int` accumulations are modelled on `Nat` with explicit
reduction modulo `2 ^ 64` and `2 ^ 32` (LP64 target); the NaN written by
`nanf("")` is modelled by `Option ℚ` with `none` standing for NaN.
Characters/bytes are modelled as `Char`.
-/

namespace Thlog

/-- Modulus of the C type `unsigned long` (LP64 target, 64 bits). -/
def ulongMod : Nat := 2 ^ 64

/-- Modulus of the C type `unsigned int` (32 bits). -/
def uintMod : Nat := 2 ^ 32

/-- Numeric value of an ASCII digit character, as computed by `c - '0'`. -/
def digitVal (c : Char) : Nat := c.toNat - 48

/-- The C test `c >= '0' && c <= '9'`. -/
def isDigitB (c : Char) : Bool := decide (48 ≤ c.toNat ∧ c.toNat ≤ 57)

/-- Decimal accumulation of a digit string on top of `n`, exactly the
repeated `n * 10 + (c - '0')` loop of the parsers (without any modulus). -/
def accNat (n : Nat) (ds : List Char) : Nat :=
  ds.foldl (fun a c => a * 10 + digitVal c) n

/-- Mathematical value of a decimal digit string. -/
def natVal (ds : List Char) : Nat := accNat 0 ds

/-- Float parser states (`tPFloatState` in parse.h). -/
inductive tPFloatState
  | PFS_START
  | PFS_STOP
  | PFS_ERROR_TOKEN
  | PFS_ERROR_OVERFLOW
  | PFS_INTEGRAL
  | PFS_FRACTION
  | PFS_REMAINING
deriving DecidableEq, Repr

/-- Error number parser states (`tPErrState` in parse.h). -/
inductive tPErrState
  | PES_START
  | PES_STOP
  | PES_ERROR_TOKEN
  | PES_ERROR_OVERFLOW
  | PES_E__
  | PES_ER_
  | PES_ERR
  | PES_INTEGRAL_START
  | PES_INTEGRAL
deriving DecidableEq, Repr

/-- Output format string parser states (`tPFmtState` in parse.h). -/
inductive tPFmtState
  | PFMTS_START
  | PFMTS_STOP
  | PFMTS_ERROR_TOKEN
  | PFMTS_ERROR_OVERFLOW
  | PFMTS_FLAG
  | PFMTS_WIDTH
  | PFMTS_PRECISION_START
  | PFMTS_PRECISION
  | PFMTS_TYPE
  | PFMTS_SUBTYPE
deriving DecidableEq, Repr

/-- Float parser context (`tPFloatCtx` in parse.h). -/
structure tPFloatCtx where
  state : tPFloatState
  result : Option ℚ
  sign : ℚ
  integral : Nat
  fraction : Nat
  digits : Nat
deriving DecidableEq, Repr

/-- Error number parser context (`tPErrCtx` in parse.h). -/
structure tPErrCtx where
  state : tPErrState
  result : Nat
deriving DecidableEq, Repr

/-- Output format string parser context (`tPFmtCtx` in parse.h).
Flags are the C bitset (LEFT_ALIGN 1, SIGN 2, ZERO 4, BLANK 8, HASHTAG 16);
`type` and `subType` are the C `int` fields holding a character code. -/
structure tPFmtCtx where
  state : tPFmtState
  flags : Nat
  width : Nat
  precision : Nat
  type : Char
  subType : Char
deriving DecidableEq, Repr

/-- The zero-initialised (memset) float parser context. -/
def zeroPFloatCtx : tPFloatCtx :=
  { state := .PFS_START, result := some 0, sign := 0, integral := 0, fraction := 0, digits := 0 }

/-- The zero-initialised (memset) error number parser context. -/
def zeroPErrCtx : tPErrCtx :=
  { state := .PES_START, result := 0 }

/-- The zero-initialised (memset) format parser context. -/
def zeroPFmtCtx : tPFmtCtx :=
  { state := .PFMTS_START, flags := 0, width := 0, precision := 0,
    type := Char.ofNat 0, subType := Char.ofNat 0 }

/-- Digit/dot/other handling shared between the `PFS_INTEGRAL` case of
`parseFloat` and the `goto onIntegral` entry from `PFS_START`. -/
def floatIntegralStep (ctx : tPFloatCtx) (c : Char) : tPFloatCtx × Int :=
  if isDigitB c then
    let i := (ctx.integral * 10 + digitVal c) % ulongMod
    if i < ctx.integral then ({ ctx with state := .PFS_ERROR_OVERFLOW, integral := i }, 0)
    else ({ ctx with integral := i }, 1)
  else if c = '.' then ({ ctx with state := .PFS_FRACTION }, 1)
  else ({ ctx with state := .PFS_STOP, result := some (ctx.sign * (ctx.integral : ℚ)) }, 0)

/-- The `onEnd` label of `parseFloat`: terminate the token and compute
`result = sign * (integral + fraction / 10 ^ digits)`. -/
def floatEnd (ctx : tPFloatCtx) : tPFloatCtx × Int :=
  ({ ctx with
      state := .PFS_STOP
      result := some (ctx.sign * ((ctx.integral : ℚ) + (ctx.fraction : ℚ) / 10 ^ ctx.digits)) }, 0)

/-- The passive float parser `parseFloat` of parse.c (the `ctx == NULL`
guard is dropped: the context is passed by value). The `Int` component is
the C return value (1 = success, 0 = failed / token ended). -/
def parseFloat (ctx : tPFloatCtx) (c : Char) : tPFloatCtx × Int :=
  match ctx.state with
  | .PFS_START =>
    let ctx0 := { ctx with result := none, integral := 0, fraction := 0, digits := 0 }
    if c = '-' then ({ ctx0 with state := .PFS_INTEGRAL, sign := -1 }, 1)
    else if isDigitB c then floatIntegralStep { ctx0 with state := .PFS_INTEGRAL, sign := 1 } c
    else if c = '.' then ({ ctx0 with state := .PFS_FRACTION }, 1)
    else ({ ctx0 with state := .PFS_ERROR_TOKEN }, 0)
  | .PFS_STOP => (ctx, 0)
  | .PFS_ERROR_TOKEN => (ctx, 0)
  | .PFS_ERROR_OVERFLOW => (ctx, 0)
  | .PFS_INTEGRAL => floatIntegralStep ctx c
  | .PFS_FRACTION =>
    if isDigitB c then
      let f := (ctx.fraction * 10 + digitVal c) % ulongMod
      if f < ctx.fraction then ({ ctx with state := .PFS_REMAINING }, 1)
      else ({ ctx with fraction := f, digits := ctx.digits + 1 }, 1)
    else floatEnd ctx
  | .PFS_REMAINING =>
    if isDigitB c then (ctx, 1) else floatEnd ctx

/-- The passive error number parser `parseErr` of parse.c. -/
def parseErr (ctx : tPErrCtx) (c : Char) : tPErrCtx × Int :=
  match ctx.state with
  | .PES_START =>
    let ctx0 := { ctx with result := 0 }
    if c = 'E' then ({ ctx0 with state := .PES_E__ }, 1)
    else ({ ctx0 with state := .PES_ERROR_TOKEN }, 0)
  | .PES_STOP => (ctx, 0)
  | .PES_ERROR_TOKEN => (ctx, 0)
  | .PES_ERROR_OVERFLOW => (ctx, 0)
  | .PES_E__ =>
    if c = 'r' then ({ ctx with state := .PES_ER_ }, 1)
    else ({ ctx with state := .PES_ERROR_TOKEN }, 0)
  | .PES_ER_ =>
    if c = 'r' then ({ ctx with state := .PES_ERR }, 1)
    else ({ ctx with state := .PES_ERROR_TOKEN }, 0)
  | .PES_ERR =>
    if c = ':' then ({ ctx with state := .PES_INTEGRAL_START }, 1)
    else ({ ctx with state := .PES_ERROR_TOKEN }, 0)
  | .PES_INTEGRAL_START =>
    if isDigitB c then ({ ctx with state := .PES_INTEGRAL, result := digitVal c }, 1)
    else if c = ' ' ∨ c = '\t' then (ctx, 1)
    else ({ ctx with state := .PES_ERROR_TOKEN }, 0)
  | .PES_INTEGRAL =>
    if isDigitB c then
      let r := (ctx.result * 10 + digitVal c) % uintMod
      if r < ctx.result then ({ ctx with state := .PES_ERROR_OVERFLOW, result := uintMod - 1 }, 0)
      else ({ ctx with result := r }, 1)
    else ({ ctx with state := .PES_STOP }, 0)

/-- The closed alphabet of terminal type characters of `parseFmt`
(the long `case` list in the `PFMTS_TYPE` state). -/
def fmtTypeChars : List Char :=
  ['%', 'a', 'A', 'b', 'B', 'c', 'C', 'd', 'D', 'e', 'E', 'F', 'g', 'G', 'h', 'H', 'I',
   'j', 'k', 'l', 'm', 'M', 'n', 'O', 'p', 'P', 'r', 'R', 's', 'S', 't', 'T', 'u', 'U',
   'V', 'w', 'W', 'x', 'X', 'y', 'Y', 'z', 'Z']

/-- The `onType` label of `parseFmt`, shared by all `goto onType` entries. -/
def fmtOnType (ctx : tPFmtCtx) (c : Char) : tPFmtCtx × Int :=
  if fmtTypeChars.contains c then ({ ctx with state := .PFMTS_STOP, type := c }, 0)
  else if c = 'v' then ({ ctx with state := .PFMTS_SUBTYPE, type := c }, 1)
  else ({ ctx with state := .PFMTS_ERROR_TOKEN, type := c }, 0)

/-- The passive output format string parser `parseFmt` of parse.c. -/
def parseFmt (ctx : tPFmtCtx) (c : Char) : tPFmtCtx × Int :=
  match ctx.state with
  | .PFMTS_START =>
    if c = '%' then
      ({ ctx with
          state := .PFMTS_FLAG
          flags := 0
          width := 0
          precision := 0
          type := Char.ofNat 0
          subType := Char.ofNat 0 }, 1)
    else ({ ctx with state := .PFMTS_ERROR_TOKEN }, 0)
  | .PFMTS_STOP => (ctx, 0)
  | .PFMTS_ERROR_TOKEN => (ctx, 0)
  | .PFMTS_ERROR_OVERFLOW => (ctx, 0)
  | .PFMTS_FLAG =>
    if c = '-' then ({ ctx with flags := ctx.flags ||| 1 }, 1)
    else if c = '+' then ({ ctx with flags := ctx.flags ||| 2 }, 1)
    else if c = '0' then ({ ctx with flags := ctx.flags ||| 4 }, 1)
    else if c = ' ' then ({ ctx with flags := ctx.flags ||| 8 }, 1)
    else if c = '#' then ({ ctx with flags := ctx.flags ||| 16 }, 1)
    else if c = '.' then ({ ctx with state := .PFMTS_PRECISION_START }, 1)
    else if 49 ≤ c.toNat ∧ c.toNat ≤ 57 then
      ({ ctx with state := .PFMTS_WIDTH, width := digitVal c }, 1)
    else fmtOnType { ctx with state := .PFMTS_TYPE } c
  | .PFMTS_WIDTH =>
    if isDigitB c then
      let w := (ctx.width * 10 + digitVal c) % uintMod
      if w < ctx.width then ({ ctx with state := .PFMTS_ERROR_OVERFLOW, width := uintMod - 1 }, 0)
      else ({ ctx with width := w }, 1)
    else if c = '.' then ({ ctx with state := .PFMTS_PRECISION_START }, 1)
    else fmtOnType { ctx with state := .PFMTS_TYPE } c
  | .PFMTS_PRECISION_START =>
    if isDigitB c then ({ ctx with state := .PFMTS_PRECISION, precision := digitVal c }, 1)
    else fmtOnType { ctx with state := .PFMTS_TYPE } c
  | .PFMTS_PRECISION =>
    if isDigitB c then
      let p := (ctx.precision * 10 + digitVal c) % uintMod
      if p < ctx.precision then
        ({ ctx with state := .PFMTS_ERROR_OVERFLOW, precision := uintMod - 1 }, 0)
      else ({ ctx with precision := p }, 1)
    else fmtOnType { ctx with state := .PFMTS_TYPE } c
  | .PFMTS_TYPE => fmtOnType ctx c
  | .PFMTS_SUBTYPE =>
    if c = 'C' ∨ c = 'F' ∨ c = 'H' then ({ ctx with state := .PFMTS_STOP, subType := c }, 0)
    else ({ ctx with state := .PFMTS_ERROR_TOKEN, subType := c }, 0)

/-- Feed a whole character list to `parseFloat`, keeping only the context. -/
def feedList (ctx : tPFloatCtx) (cs : List Char) : tPFloatCtx :=
  cs.foldl (fun a c => (parseFloat a c).1) ctx

/-- Feed a whole character list to `parseErr`, keeping only the context. -/
def feedErrList (ctx : tPErrCtx) (cs : List Char) : tPErrCtx :=
  cs.foldl (fun a c => (parseErr a c).1) ctx

/-- Feed a whole character list to `parseFmt`, keeping only the context. -/
def feedFmtList (ctx : tPFmtCtx) (cs : List Char) : tPFmtCtx :=
  cs.foldl (fun a c => (parseFmt a c).1) ctx

/-- Resetting a float parser context, as done by `memset(&pFloat, 0, ...)`. -/
def resetFloat (_ : tPFloatCtx) : tPFloatCtx := zeroPFloatCtx

/-- Resetting an error parser context, as done by `memset(&pErr, 0, ...)`. -/
def resetErr (_ : tPErrCtx) : tPErrCtx := zeroPErrCtx

/-- Resetting a format parser context, as done by `memset(&pFmt, 0, ...)`. -/
def resetFmt (_ : tPFmtCtx) : tPFmtCtx := zeroPFmtCtx

/-- The 3-position field cycle of `processData` (the local `enum pState`). -/
inductive FieldPos
  | ST_TEMP
  | ST_RH
  | ST_SUM
deriving DecidableEq, Repr

/-- The mutable state of the `processData` loop of thlog.c: the field
cycle position, the last parsed temperature/humidity, the aggregation
window (sums, count, interval start time) and the two parser contexts.
Wall-clock times are modelled as integers (seconds). -/
structure ProcState where
  pState : FieldPos
  temp : ℚ
  rh : ℚ
  tempSum : ℚ
  rhSum : ℚ
  valueCount : Nat
  pFloat : tPFloatCtx
  pErr : tPErrCtx
  intvlStart : Int
deriving DecidableEq, Repr

/-- The initial `processData` state (all values zeroed, parsers memset,
`time(&intvlStart)` returning `t0`). -/
def initProcState (t0 : Int) : ProcState :=
  { pState := .ST_TEMP, temp := 0, rh := 0, tempSum := 0, rhSum := 0, valueCount := 0,
    pFloat := zeroPFloatCtx, pErr := zeroPErrCtx, intvlStart := t0 }

/-- The body of the per-byte `for` loop of `processData`: feed the error
parser (resetting it on STOP or error), feed the float parser, dispatch a
completed float into the temperature/humidity/checksum cycle with the
`|temp + rh - sum| > 0.001` checksum test, re-initialise the value parser
on failure, and re-initialise everything on a line end. -/
def stepByte (s : ProcState) (c : Char) : ProcState :=
  let pe := (parseErr s.pErr c).1
  let pErr1 :=
    match pe.state with
    | .PES_STOP => zeroPErrCtx
    | .PES_ERROR_TOKEN => zeroPErrCtx
    | .PES_ERROR_OVERFLOW => zeroPErrCtx
    | _ => pe
  let pr := parseFloat s.pFloat c
  let res :=
    match pr.1.state with
    | .PFS_STOP =>
      let s1 :=
        match s.pState with
        | .ST_TEMP => { s with temp := pr.1.result.getD 0, pState := .ST_RH }
        | .ST_RH => { s with rh := pr.1.result.getD 0, pState := .ST_SUM }
        | .ST_SUM =>
          if 1 / 1000 < |s.temp + s.rh - pr.1.result.getD 0| then { s with pState := .ST_TEMP }
          else
            { s with
                pState := .ST_TEMP
                tempSum := s.tempSum + s.temp
                rhSum := s.rhSum + s.rh
                valueCount := s.valueCount + 1 }
      { s1 with pFloat := zeroPFloatCtx, pErr := zeroPErrCtx }
    | .PFS_ERROR_TOKEN => { s with pFloat := zeroPFloatCtx, pErr := pErr1, pState := .ST_TEMP }
    | .PFS_ERROR_OVERFLOW => { s with pFloat := zeroPFloatCtx, pErr := pErr1, pState := .ST_TEMP }
    | _ =>
      if pr.2 = 0 then { s with pFloat := zeroPFloatCtx, pErr := pErr1, pState := .ST_TEMP }
      else { s with pFloat := pr.1, pErr := pErr1 }
  if c = '\r' ∨ c = '\n' then
    { res with pFloat := zeroPFloatCtx, pErr := zeroPErrCtx, pState := .ST_TEMP }
  else res

/-- Feed a batch of bytes through the per-byte loop. -/
def processBytes (s : ProcState) (bs : List Char) : ProcState :=
  bs.foldl stepByte s

/-- One rendered output line, produced when the aggregation window is
emitted: the mean temperature, the mean humidity, and the time reference
passed to the renderer. -/
structure Emission where
  temp : ℚ
  rh : ℚ
  time : Int
deriving DecidableEq, Repr

/-- The per-batch interval check at the bottom of the `processData` loop:
if `valueCount == 0`, restart the interval (and `continue`); otherwise if
`difftime(now, intvlStart) >= intvl`, emit the means and reset the window. -/
def checkInterval (intvl : Nat) (now : Int) (s : ProcState) : ProcState × Option Emission :=
  if s.valueCount = 0 then ({ s with intvlStart := now }, none)
  else if (intvl : Int) ≤ now - s.intvlStart then
    ({ s with tempSum := 0, rhSum := 0, valueCount := 0, intvlStart := now },
     some { temp := s.tempSum / (s.valueCount : ℚ), rh := s.rhSum / (s.valueCount : ℚ), time := now })
  else (s, none)

/-- One full iteration of the `processData` read loop: process the bytes
returned by one bounded-timeout read, then perform the interval check once. -/
def processBatch (intvl : Nat) (now : Int) (bs : List Char) (s : ProcState) :
    ProcState × Option Emission :=
  checkInterval intvl now (processBytes s bs)

/-- Error classes a `printData` run can report before returning -1:
a too-large width/precision (MSGT_ERR_FMT_OVERFLOW), a directive syntax
error (MSGT_ERR_FMT_SYNTAX), or a directive too long for the scratch
buffer (MSGT_ERR_FMT_LENGTH). -/
inductive FmtErrKind
  | fmtOverflow
  | fmtBadCode
  | fmtTooLong
deriving DecidableEq, Repr

/-- Diagnostic data of a fatal rendering error: the error class, the
offset `ptr + 1 - fmt` into the template, the scanned part `%.*s` of the
template up to that offset and the unscanned remainder `ptr + 1`. -/
structure RenderError where
  kind : FmtErrKind
  offset : Nat
  scanned : List Char
  remaining : List Char
deriving DecidableEq, Repr

/-- The scanning state of the `printData` loop: accumulated output, the
literal-run start index `start`, the previous character `last`, the
escape flag `esc` and the format parser context. -/
structure PrintSt where
  out : List Char
  start : Nat
  last : Char
  esc : Bool
  pFmt : tPFmtCtx
deriving DecidableEq, Repr

/-- Character codes produced by the escape-code switch of `printData`
(0 means the character is not a recognised escape code). -/
def escMap (c : Char) : Nat :=
  if c = '\\' then 92
  else if c = 'a' then 7
  else if c = 'b' then 8
  else if c = 'e' then 27
  else if c = 'f' then 12
  else if c = 'n' then 10
  else if c = 'r' then 13
  else if c = 't' then 9
  else 0

/-- The half-open index range `[a, b)` of a character list, as used by the
pointer arithmetic of `printData`. -/
def slice (l : List Char) (a b : Nat) : List Char :=
  (l.drop a).take (b - a)

/-- Decimal digit characters of a natural number (fuel-based helper). -/
def natDigitsAux : Nat → Nat → List Char → List Char
  | 0, _, acc => acc
  | fuel + 1, n, acc =>
    if n < 10 then Char.ofNat (48 + n) :: acc
    else natDigitsAux fuel (n / 10) (Char.ofNat (48 + n % 10) :: acc)

/-- Decimal digit characters of a natural number, most significant first. -/
def natToDigits (n : Nat) : List Char := natDigitsAux (n + 1) n []

/-- Left-pad a character list to length `n` with `c`. -/
def padLeft (c : Char) (n : Nat) (s : List Char) : List Char :=
  List.replicate (n - s.length) c ++ s

/-- Right-pad a character list to length `n` with spaces. -/
def padRight (n : Nat) (s : List Char) : List Char :=
  s ++ List.replicate (n - s.length) ' '

/-- Flag characters accepted by the `%f` conversion of the C library. -/
def isFlagChar (c : Char) : Bool :=
  decide (c = '-' ∨ c = '+' ∨ c = ' ' ∨ c = '#' ∨ c = '0')

/-- Modelled from the spec: the C library `%f` floating-point conversion
used by `_ftprintf(fd, buf, value)` when rendering a sensor-value
directive (the printf implementation itself is outside src/). Rounds the
exact rational to `prec` decimal places (half away from zero), then
applies sign, `#`, width and padding flags in the usual printf manner. -/
def fFormat (leftAlign plusF blankF zeroF altF : Bool) (width prec : Nat) (x : ℚ) : List Char :=
  let neg := decide (x < 0)
  let scaled := (Int.floor (|x| * 10 ^ prec + 1 / 2)).toNat
  let ip := scaled / 10 ^ prec
  let fp := scaled % 10 ^ prec
  let fracChars :=
    if prec = 0 then (if altF then ['.'] else [])
    else '.' :: padLeft '0' prec (natToDigits fp)
  let body := natToDigits ip ++ fracChars
  let signChars := if neg then ['-'] else if plusF then ['+'] else if blankF then [' '] else []
  let unpadded := signChars ++ body
  if width ≤ unpadded.length then unpadded
  else if leftAlign then padRight width unpadded
  else if zeroF then signChars ++ List.replicate (width - unpadded.length) '0' ++ body
  else padLeft ' ' width unpadded

/-- Modelled from the spec: the C library printf applied to the format
string synthesised by `printData` for `%v` directives, which always has
the shape `%[flags][width][.precision]f`. Parses that shape and formats
the value with `fFormat`; any other shape yields no output. -/
def cPrintfF (spec : List Char) (x : ℚ) : List Char :=
  match spec with
  | '%' :: r0 =>
    let fl := r0.takeWhile isFlagChar
    let r1 := r0.dropWhile isFlagChar
    let width := natVal (r1.takeWhile isDigitB)
    let r2 := r1.dropWhile isDigitB
    let pr :=
      match r2 with
      | '.' :: r3 => (natVal (r3.takeWhile isDigitB), r3.dropWhile isDigitB)
      | _ => (6, r2)
    match pr.2 with
    | ['f'] =>
      fFormat (fl.contains '-') (fl.contains '+') (fl.contains ' ') (fl.contains '0')
        (fl.contains '#') width pr.1 x
    | _ => []
  | _ => []

/-- The sensor value selected by a `%v` subtype character: temperature in
degrees Celsius for `C`, `temp * 1.8 + 32` for `F`, relative humidity for
`H`. -/
def sensorValue (sub : Char) (temp rh : ℚ) : ℚ :=
  if sub = 'C' then temp
  else if sub = 'F' then temp * (9 / 5) + 32
  else rh

/-- Scanner state after a completed directive or escape: output extended
by `o`, the literal run restarted after the current character, the format
parser memset back to zero and `last` updated. -/
def emitSt (st : PrintSt) (o : List Char) (ptr : Nat) (c : Char) : PrintSt :=
  { st with out := st.out ++ o, start := ptr + 1, pFmt := zeroPFmtCtx, last := c }

/-- The scanning loop of `printData` over the template `fmt`, carrying the
unscanned suffix `rest` (with `ptr` its starting index in `fmt`) and the
scanner state. `strf` is the external `strftime`-style time-formatting
primitive applied to a passthrough calendar directive; it returns the
formatted characters (subject to the 64-character output buffer, a result
of length 0 or more than 63 makes `_tcsftime` report failure). -/
def printLoop (strf : List Char → List Char) (temp rh : ℚ) (fmt : List Char) :
    List Char → Nat → PrintSt → Except RenderError (List Char)
  | [], ptr, st =>
    if st.start ≠ ptr then .ok (st.out ++ slice fmt st.start ptr) else .ok st.out
  | c :: cs, ptr, st =>
    if st.esc = true ∧ escMap c ≠ 0 then
      printLoop strf temp rh fmt cs (ptr + 1)
        { st with
            out := st.out ++ [Char.ofNat (escMap c)]
            start := ptr + 1
            esc := false
            last := c }
    else if st.pFmt.state = .PFMTS_START ∧ c = '\\' then
      let st1 :=
        if st.start ≠ ptr then { st with out := st.out ++ slice fmt st.start ptr, start := ptr }
        else st
      printLoop strf temp rh fmt cs (ptr + 1) { st1 with esc := true }
    else if st.pFmt.state = .PFMTS_START ∧ c ≠ '%' then
      printLoop strf temp rh fmt cs (ptr + 1) { st with esc := false, last := c }
    else
      let st0 := { st with esc := false }
      let st1 :=
        if st0.pFmt.state = .PFMTS_START ∧ st0.start ≠ ptr then
          { st0 with out := st0.out ++ slice fmt st0.start ptr, start := ptr }
        else st0
      let pr := parseFmt st1.pFmt c
      if pr.2 ≠ 1 ∧ pr.1.state ≠ .PFMTS_STOP then
        .error
          { kind := if pr.1.state = .PFMTS_ERROR_OVERFLOW then .fmtOverflow else .fmtBadCode
            offset := ptr + 1
            scanned := fmt.take (ptr + 1)
            remaining := fmt.drop (ptr + 1) }
      else if pr.1.state = .PFMTS_STOP then
        if pr.1.type = 'v' then
          if 64 ≤ ptr then
            .error
              { kind := .fmtTooLong, offset := ptr + 1
                scanned := fmt.take (ptr + 1), remaining := fmt.drop (ptr + 1) }
          else
            let buf := slice fmt st1.start (ptr - 1) ++ ['f']
            if pr.1.subType = 'C' ∨ pr.1.subType = 'F' ∨ pr.1.subType = 'H' then
              printLoop strf temp rh fmt cs (ptr + 1)
                (emitSt st1 (cPrintfF buf (sensorValue pr.1.subType temp rh)) ptr c)
            else
              .error
                { kind := .fmtBadCode, offset := ptr + 1
                  scanned := fmt.take (ptr + 1), remaining := fmt.drop (ptr + 1) }
        else if pr.1.type = '%' ∧ st1.last = '%' then
          printLoop strf temp rh fmt cs (ptr + 1) (emitSt st1 ['%'] ptr c)
        else if st1.last = '%' ∨ st1.last = '#' then
          let o := strf (slice fmt st1.start (ptr + 1))
          if o.length = 0 ∨ 64 ≤ o.length then
            .error
              { kind := .fmtBadCode, offset := ptr + 1
                scanned := fmt.take (ptr + 1), remaining := fmt.drop (ptr + 1) }
          else printLoop strf temp rh fmt cs (ptr + 1) (emitSt st1 o ptr c)
        else
          .error
            { kind := .fmtBadCode, offset := ptr + 1
              scanned := fmt.take (ptr + 1), remaining := fmt.drop (ptr + 1) }
      else
        printLoop strf temp rh fmt cs (ptr + 1) { st1 with pFmt := pr.1, last := c }

/-- The template renderer `printData` of thlog.c, with the output stream
replaced by the returned character list and write errors ignored (the
model's output cannot fail). -/
def printData (strf : List Char → List Char) (fmt : List Char) (temp rh : ℚ) :
    Except RenderError (List Char) :=
  printLoop strf temp rh fmt fmt 0
    { out := [], start := 0, last := Char.ofNat 0, esc := false, pFmt := zeroPFmtCtx }

/-- The float parser context right after the sign/first character of a
token has been handled from `PFS_START`. -/
def signedStartCtx (sgn : ℚ) : tPFloatCtx :=
  { state := .PFS_INTEGRAL, result := none, sign := sgn, integral := 0, fraction := 0, digits := 0 }

/-- Character sequence of a decimal token matching the pattern of an
optional minus sign, integral digits `ds`, and an optional fractional part
`fr` introduced by a dot. -/
def floatTokenChars (neg : Bool) (ds : List Char) (fr : Option (List Char)) : List Char :=
  (cond neg ['-'] []) ++ ds ++ (match fr with | none => [] | some fs => '.' :: fs)

/-- Mathematical value of such a decimal token. -/
def floatTokenVal (neg : Bool) (ds : List Char) (fr : Option (List Char)) : ℚ :=
  (cond neg (-1) 1) * ((natVal ds : ℚ) + (natVal (fr.getD []) : ℚ) / 10 ^ (fr.getD []).length)

/- ===================== helper lemmas ===================== -/

theorem accNat_cons (n : Nat) (c : Char) (cs : List Char) :
    accNat n (c :: cs) = accNat (n * 10 + digitVal c) cs := rfl

theorem accNat_le (n : Nat) (ds : List Char) : n ≤ accNat n ds := by
  induction ds generalizing n with
  | nil => exact Nat.le_refl n
  | cons c cs ih =>
    have h1 : n ≤ n * 10 + digitVal c := by omega
    exact le_trans h1 (ih (n * 10 + digitVal c))

theorem feedList_cons (ctx : tPFloatCtx) (c : Char) (cs : List Char) :
    feedList ctx (c :: cs) = feedList (parseFloat ctx c).1 cs := rfl

theorem feedList_append (ctx : tPFloatCtx) (l1 l2 : List Char) :
    feedList ctx (l1 ++ l2) = feedList (feedList ctx l1) l2 := by
  simp [feedList, List.foldl_append]

theorem parseFloat_integral_digit (ctx : tPFloatCtx) (c : Char)
    (hst : ctx.state = .PFS_INTEGRAL) (hc : isDigitB c = true)
    (hlt : ctx.integral * 10 + digitVal c < ulongMod) :
    parseFloat ctx c = ({ ctx with integral := ctx.integral * 10 + digitVal c }, 1) := by
  have hmod : (ctx.integral * 10 + digitVal c) % ulongMod = ctx.integral * 10 + digitVal c :=
    Nat.mod_eq_of_lt hlt
  have hno : ¬ (ctx.integral * 10 + digitVal c < ctx.integral) := by omega
  simp [parseFloat, hst, floatIntegralStep, hc, hmod, hno]

theorem parseFloat_integral_dot (ctx : tPFloatCtx) (hst : ctx.state = .PFS_INTEGRAL) :
    parseFloat ctx '.' = ({ ctx with state := .PFS_FRACTION }, 1) := by
  simp [parseFloat, hst, floatIntegralStep, (by decide : isDigitB '.' = false)]

theorem parseFloat_integral_stop (ctx : tPFloatCtx) (t : Char)
    (hst : ctx.state = .PFS_INTEGRAL) (hd : isDigitB t = false) (hdot : t ≠ '.') :
    parseFloat ctx t =
      ({ ctx with state := .PFS_STOP, result := some (ctx.sign * (ctx.integral : ℚ)) }, 0) := by
  simp [parseFloat, hst, floatIntegralStep, hd, hdot]

theorem parseFloat_fraction_digit (ctx : tPFloatCtx) (c : Char)
    (hst : ctx.state = .PFS_FRACTION) (hc : isDigitB c = true)
    (hlt : ctx.fraction * 10 + digitVal c < ulongMod) :
    parseFloat ctx c =
      ({ ctx with fraction := ctx.fraction * 10 + digitVal c, digits := ctx.digits + 1 }, 1) := by
  have hmod : (ctx.fraction * 10 + digitVal c) % ulongMod = ctx.fraction * 10 + digitVal c :=
    Nat.mod_eq_of_lt hlt
  have hno : ¬ (ctx.fraction * 10 + digitVal c < ctx.fraction) := by omega
  simp [parseFloat, hst, hc, hmod, hno]

theorem parseFloat_fraction_stop (ctx : tPFloatCtx) (t : Char)
    (hst : ctx.state = .PFS_FRACTION) (hd : isDigitB t = false) :
    parseFloat ctx t =
      ({ ctx with
          state := .PFS_STOP
          result := some (ctx.sign * ((ctx.integral : ℚ) + (ctx.fraction : ℚ) / 10 ^ ctx.digits)) },
       0) := by
  simp [parseFloat, hst, hd, floatEnd]

theorem parseFloat_stop_noop (ctx : tPFloatCtx) (c : Char) (hst : ctx.state = .PFS_STOP) :
    parseFloat ctx c = (ctx, 0) := by
  simp [parseFloat, hst]

theorem parseFloat_start_digit (c : Char) (hc : isDigitB c = true) :
    parseFloat zeroPFloatCtx c = parseFloat (signedStartCtx 1) c := by
  have hne : c ≠ '-' := by
    intro h
    rw [h] at hc
    exact absurd hc (by decide)
  simp [parseFloat, zeroPFloatCtx, signedStartCtx, hne, hc]

theorem feedList_integral_digits (ds : List Char) : ∀ ctx : tPFloatCtx,
    ctx.state = .PFS_INTEGRAL → (∀ c ∈ ds, isDigitB c = true) →
    accNat ctx.integral ds < ulongMod →
    feedList ctx ds = { ctx with integral := accNat ctx.integral ds } := by
  induction ds with
  | nil => intro ctx hst hds hacc; rfl
  | cons c cs ih =>
    intro ctx hst hds hacc
    have hc : isDigitB c = true := hds c (List.mem_cons_self c cs)
    have hle : ctx.integral * 10 + digitVal c ≤ accNat ctx.integral (c :: cs) := by
      rw [accNat_cons]; exact accNat_le _ cs
    have hlt : ctx.integral * 10 + digitVal c < ulongMod := lt_of_le_of_lt hle hacc
    rw [feedList_cons, parseFloat_integral_digit ctx c hst hc hlt]
    have hds' : ∀ x ∈ cs, isDigitB x = true := fun x hx => hds x (List.mem_cons_of_mem c hx)
    have hacc' : accNat (ctx.integral * 10 + digitVal c) cs < ulongMod := by
      rwa [accNat_cons] at hacc
    show feedList { ctx with integral := ctx.integral * 10 + digitVal c } cs = _
    rw [ih { ctx with integral := ctx.integral * 10 + digitVal c } hst hds' hacc']
    rfl

theorem feedList_fraction_digits (ds : List Char) : ∀ ctx : tPFloatCtx,
    ctx.state = .PFS_FRACTION → (∀ c ∈ ds, isDigitB c = true) →
    accNat ctx.fraction ds < ulongMod →
    feedList ctx ds =
      { ctx with fraction := accNat ctx.fraction ds, digits := ctx.digits + ds.length } := by
  induction ds with
  | nil =>
    intro ctx hst hds hacc
    show ctx = _
    cases ctx
    simp [accNat]
  | cons c cs ih =>
    intro ctx hst hds hacc
    have hc : isDigitB c = true := hds c (List.mem_cons_self c cs)
    have hle : ctx.fraction * 10 + digitVal c ≤ accNat ctx.fraction (c :: cs) := by
      rw [accNat_cons]; exact accNat_le _ cs
    have hlt : ctx.fraction * 10 + digitVal c < ulongMod := lt_of_le_of_lt hle hacc
    rw [feedList_cons, parseFloat_fraction_digit ctx c hst hc hlt]
    have hds' : ∀ x ∈ cs, isDigitB x = true := fun x hx => hds x (List.mem_cons_of_mem c hx)
    have hacc' : accNat (ctx.fraction * 10 + digitVal c) cs < ulongMod := by
      rwa [accNat_cons] at hacc
    show feedList { ctx with fraction := ctx.fraction * 10 + digitVal c, digits := ctx.digits + 1 }
        cs = _
    rw [ih { ctx with fraction := ctx.fraction * 10 + digitVal c, digits := ctx.digits + 1 }
        hst hds' hacc']
    simp only [List.length_cons]
    congr 1
    omega

/- ===================== claims ===================== -/

theorem stepByte_sum_cases (s : ProcState) (c : Char) (v : ℚ)
    (hp : s.pState = .ST_SUM)
    (hstop : (parseFloat s.pFloat c).1.state = .PFS_STOP)
    (hres : (parseFloat s.pFloat c).1.result = some v) :
    (|s.temp + s.rh - v| ≤ 1 / 1000 →
       (stepByte s c).tempSum = s.tempSum + s.temp ∧
       (stepByte s c).rhSum = s.rhSum + s.rh ∧
       (stepByte s c).valueCount = s.valueCount + 1) ∧
    (1 / 1000 < |s.temp + s.rh - v| →
       (stepByte s c).tempSum = s.tempSum ∧
       (stepByte s c).rhSum = s.rhSum ∧
       (stepByte s c).valueCount = s.valueCount) ∧
    (stepByte s c).intvlStart = s.intvlStart := by
  refine ⟨fun hacc => ?_, fun hrej => ?_, ?_⟩
  · have hno : ¬ (1 / 1000 < |s.temp + s.rh - v|) := not_lt.mpr hacc
    simp only [stepByte, hstop, hres, hp, Option.getD_some, if_neg hno]
    split_ifs <;> simp
  · simp only [stepByte, hstop, hres, hp, Option.getD_some, if_pos hrej]
    split_ifs <;> simp
  · simp only [stepByte, hstop, hres, hp, Option.getD_some]
    split_ifs <;> simp

/-- C1: a completed third field (checksum) is accepted into the
aggregation window if and only if the checksum is within 0.001 of
temperature plus humidity; acceptance increments the count and grows both
sums by the pending temperature and humidity, rejection leaves sums and
count unchanged, and the window start time is untouched either way.
Concretely, the stream 20.0 TAB 50.0 TAB 70.0 LF yields count 1 with sums
20 and 50, while the same stream with checksum 99.0 leaves the window at
count 0, sums 0, start time unchanged. -/
theorem thlog_C1 :
    (∀ (s : ProcState) (c : Char) (v : ℚ),
      s.pState = .ST_SUM →
      (parseFloat s.pFloat c).1.state = .PFS_STOP →
      (parseFloat s.pFloat c).1.result = some v →
      (|s.temp + s.rh - v| ≤ 1 / 1000 →
         (stepByte s c).tempSum = s.tempSum + s.temp ∧
         (stepByte s c).rhSum = s.rhSum + s.rh ∧
         (stepByte s c).valueCount = s.valueCount + 1) ∧
      (1 / 1000 < |s.temp + s.rh - v| →
         (stepByte s c).tempSum = s.tempSum ∧
         (stepByte s c).rhSum = s.rhSum ∧
         (stepByte s c).valueCount = s.valueCount) ∧
      (stepByte s c).intvlStart = s.intvlStart) ∧
    ((processBytes (initProcState 0) "20.0\t50.0\t70.0\n".data).valueCount = 1 ∧
     (processBytes (initProcState 0) "20.0\t50.0\t70.0\n".data).tempSum = 20 ∧
     (processBytes (initProcState 0) "20.0\t50.0\t70.0\n".data).rhSum = 50) ∧
    ((processBytes (initProcState 0) "20.0\t50.0\t99.0\n".data).valueCount = 0 ∧
     (processBytes (initProcState 0) "20.0\t50.0\t99.0\n".data).tempSum = 0 ∧
     (processBytes (initProcState 0) "20.0\t50.0\t99.0\n".data).rhSum = 0 ∧
     (processBytes (initProcState 0) "20.0\t50.0\t99.0\n".data).intvlStart = 0) := by
  refine ⟨stepByte_sum_cases, ⟨?_, ?_, ?_⟩, ⟨?_, ?_, ?_, ?_⟩⟩
  · have hsplit : processBytes (initProcState 0) "20.0\t50.0\t70.0\n".data
        = stepByte (processBytes (initProcState 0) "20.0\t50.0\t70.0".data) '\n' := rfl
    have ht : (processBytes (initProcState 0) "20.0\t50.0\t70.0".data).temp = 20 := by
      have h : (processBytes (initProcState 0) "20.0\t50.0\t70.0".data).temp
          = (1 : ℚ) * (((20 : ℕ) : ℚ) + ((0 : ℕ) : ℚ) / 10 ^ (1 : ℕ)) := rfl
      rw [h]; norm_num
    have hr : (processBytes (initProcState 0) "20.0\t50.0\t70.0".data).rh = 50 := by
      have h : (processBytes (initProcState 0) "20.0\t50.0\t70.0".data).rh
          = (1 : ℚ) * (((50 : ℕ) : ℚ) + ((0 : ℕ) : ℚ) / 10 ^ (1 : ℕ)) := rfl
      rw [h]; norm_num
    have hcase := stepByte_sum_cases (processBytes (initProcState 0) "20.0\t50.0\t70.0".data)
      '\n' ((1 : ℚ) * (((70 : ℕ) : ℚ) + ((0 : ℕ) : ℚ) / 10 ^ (1 : ℕ)))
      (by decide) (by decide) rfl
    have hacc := hcase.1 (by rw [ht, hr]; norm_num)
    rw [hsplit, hacc.2.2]
    decide
  · have hsplit : processBytes (initProcState 0) "20.0\t50.0\t70.0\n".data
        = stepByte (processBytes (initProcState 0) "20.0\t50.0\t70.0".data) '\n' := rfl
    have ht : (processBytes (initProcState 0) "20.0\t50.0\t70.0".data).temp = 20 := by
      have h : (processBytes (initProcState 0) "20.0\t50.0\t70.0".data).temp
          = (1 : ℚ) * (((20 : ℕ) : ℚ) + ((0 : ℕ) : ℚ) / 10 ^ (1 : ℕ)) := rfl
      rw [h]; norm_num
    have hr : (processBytes (initProcState 0) "20.0\t50.0\t70.0".data).rh = 50 := by
      have h : (processBytes (initProcState 0) "20.0\t50.0\t70.0".data).rh
          = (1 : ℚ) * (((50 : ℕ) : ℚ) + ((0 : ℕ) : ℚ) / 10 ^ (1 : ℕ)) := rfl
      rw [h]; norm_num
    have hcase := stepByte_sum_cases (processBytes (initProcState 0) "20.0\t50.0\t70.0".data)
      '\n' ((1 : ℚ) * (((70 : ℕ) : ℚ) + ((0 : ℕ) : ℚ) / 10 ^ (1 : ℕ)))
      (by decide) (by decide) rfl
    have hacc := hcase.1 (by rw [ht, hr]; norm_num)
    rw [hsplit, hacc.1, ht]
    have hz : (processBytes (initProcState 0) "20.0\t50.0\t70.0".data).tempSum = 0 := rfl
    rw [hz]; norm_num
  · have hsplit : processBytes (initProcState 0) "20.0\t50.0\t70.0\n".data
        = stepByte (processBytes (initProcState 0) "20.0\t50.0\t70.0".data) '\n' := rfl
    have ht : (processBytes (initProcState 0) "20.0\t50.0\t70.0".data).temp = 20 := by
      have h : (processBytes (initProcState 0) "20.0\t50.0\t70.0".data).temp
          = (1 : ℚ) * (((20 : ℕ) : ℚ) + ((0 : ℕ) : ℚ) / 10 ^ (1 : ℕ)) := rfl
      rw [h]; norm_num
    have hr : (processBytes (initProcState 0) "20.0\t50.0\t70.0".data).rh = 50 := by
      have h : (processBytes (initProcState 0) "20.0\t50.0\t70.0".data).rh
          = (1 : ℚ) * (((50 : ℕ) : ℚ) + ((0 : ℕ) : ℚ) / 10 ^ (1 : ℕ)) := rfl
      rw [h]; norm_num
    have hcase := stepByte_sum_cases (processBytes (initProcState 0) "20.0\t50.0\t70.0".data)
      '\n' ((1 : ℚ) * (((70 : ℕ) : ℚ) + ((0 : ℕ) : ℚ) / 10 ^ (1 : ℕ)))
      (by decide) (by decide) rfl
    have hacc := hcase.1 (by rw [ht, hr]; norm_num)
    rw [hsplit, hacc.2.1, hr]
    have hz : (processBytes (initProcState 0) "20.0\t50.0\t70.0".data).rhSum = 0 := rfl
    rw [hz]; norm_num
  · have hsplit : processBytes (initProcState 0) "20.0\t50.0\t99.0\n".data
        = stepByte (processBytes (initProcState 0) "20.0\t50.0\t99.0".data) '\n' := rfl
    have ht : (processBytes (initProcState 0) "20.0\t50.0\t99.0".data).temp = 20 := by
      have h : (processBytes (initProcState 0) "20.0\t50.0\t99.0".data).temp
          = (1 : ℚ) * (((20 : ℕ) : ℚ) + ((0 : ℕ) : ℚ) / 10 ^ (1 : ℕ)) := rfl
      rw [h]; norm_num
    have hr : (processBytes (initProcState 0) "20.0\t50.0\t99.0".data).rh = 50 := by
      have h : (processBytes (initProcState 0) "20.0\t50.0\t99.0".data).rh
          = (1 : ℚ) * (((50 : ℕ) : ℚ) + ((0 : ℕ) : ℚ) / 10 ^ (1 : ℕ)) := rfl
      rw [h]; norm_num
    have hcase := stepByte_sum_cases (processBytes (initProcState 0) "20.0\t50.0\t99.0".data)
      '\n' ((1 : ℚ) * (((99 : ℕ) : ℚ) + ((0 : ℕ) : ℚ) / 10 ^ (1 : ℕ)))
      (by decide) (by decide) rfl
    have hrej := hcase.2.1 (by rw [ht, hr]; norm_num)
    rw [hsplit, hrej.2.2]
    decide
  · have hsplit : processBytes (initProcState 0) "20.0\t50.0\t99.0\n".data
        = stepByte (processBytes (initProcState 0) "20.0\t50.0\t99.0".data) '\n' := rfl
    have ht : (processBytes (initProcState 0) "20.0\t50.0\t99.0".data).temp = 20 := by
      have h : (processBytes (initProcState 0) "20.0\t50.0\t99.0".data).temp
          = (1 : ℚ) * (((20 : ℕ) : ℚ) + ((0 : ℕ) : ℚ) / 10 ^ (1 : ℕ)) := rfl
      rw [h]; norm_num
    have hr : (processBytes (initProcState 0) "20.0\t50.0\t99.0".data).rh = 50 := by
      have h : (processBytes (initProcState 0) "20.0\t50.0\t99.0".data).rh
          = (1 : ℚ) * (((50 : ℕ) : ℚ) + ((0 : ℕ) : ℚ) / 10 ^ (1 : ℕ)) := rfl
      rw [h]; norm_num
    have hcase := stepByte_sum_cases (processBytes (initProcState 0) "20.0\t50.0\t99.0".data)
      '\n' ((1 : ℚ) * (((99 : ℕ) : ℚ) + ((0 : ℕ) : ℚ) / 10 ^ (1 : ℕ)))
      (by decide) (by decide) rfl
    have hrej := hcase.2.1 (by rw [ht, hr]; norm_num)
    rw [hsplit, hrej.1]
    rfl
  · have hsplit : processBytes (initProcState 0) "20.0\t50.0\t99.0\n".data
        = stepByte (processBytes (initProcState 0) "20.0\t50.0\t99.0".data) '\n' := rfl
    have ht : (processBytes (initProcState 0) "20.0\t50.0\t99.0".data).temp = 20 := by
      have h : (processBytes (initProcState 0) "20.0\t50.0\t99.0".data).temp
          = (1 : ℚ) * (((20 : ℕ) : ℚ) + ((0 : ℕ) : ℚ) / 10 ^ (1 : ℕ)) := rfl
      rw [h]; norm_num
    have hr : (processBytes (initProcState 0) "20.0\t50.0\t99.0".data).rh = 50 := by
      have h : (processBytes (initProcState 0) "20.0\t50.0\t99.0".data).rh
          = (1 : ℚ) * (((50 : ℕ) : ℚ) + ((0 : ℕ) : ℚ) / 10 ^ (1 : ℕ)) := rfl
      rw [h]; norm_num
    have hcase := stepByte_sum_cases (processBytes (initProcState 0) "20.0\t50.0\t99.0".data)
      '\n' ((1 : ℚ) * (((99 : ℕ) : ℚ) + ((0 : ℕ) : ℚ) / 10 ^ (1 : ℕ)))
      (by decide) (by decide) rfl
    have hrej := hcase.2.1 (by rw [ht, hr]; norm_num)
    rw [hsplit, hrej.2.1]
    rfl
  · have hsplit : processBytes (initProcState 0) "20.0\t50.0\t99.0\n".data
        = stepByte (processBytes (initProcState 0) "20.0\t50.0\t99.0".data) '\n' := rfl
    have hcase := stepByte_sum_cases (processBytes (initProcState 0) "20.0\t50.0\t99.0".data)
      '\n' ((1 : ℚ) * (((99 : ℕ) : ℚ) + ((0 : ℕ) : ℚ) / 10 ^ (1 : ℕ)))
      (by decide) (by decide) rfl
    rw [hsplit, hcase.2.2]
    rfl

/-- Witness for the general conjunct of C1: the accepted-record case at
the concrete stream 20.0 TAB 50.0 TAB 70.0 with terminator LF. -/
theorem thlog_C1_witness :
    (stepByte (processBytes (initProcState 0) "20.0\t50.0\t70.0".data) '\n').tempSum
      = (processBytes (initProcState 0) "20.0\t50.0\t70.0".data).tempSum
        + (processBytes (initProcState 0) "20.0\t50.0\t70.0".data).temp ∧
    (stepByte (processBytes (initProcState 0) "20.0\t50.0\t70.0".data) '\n').rhSum
      = (processBytes (initProcState 0) "20.0\t50.0\t70.0".data).rhSum
        + (processBytes (initProcState 0) "20.0\t50.0\t70.0".data).rh ∧
    (stepByte (processBytes (initProcState 0) "20.0\t50.0\t70.0".data) '\n').valueCount
      = (processBytes (initProcState 0) "20.0\t50.0\t70.0".data).valueCount + 1 :=
  (thlog_C1.1 (processBytes (initProcState 0) "20.0\t50.0\t70.0".data) '\n'
      ((1 : ℚ) * (((70 : ℕ) : ℚ) + ((0 : ℕ) : ℚ) / 10 ^ (1 : ℕ)))
      (by decide) (by decide) rfl).1 (by
    have ht : (processBytes (initProcState 0) "20.0\t50.0\t70.0".data).temp
        = (1 : ℚ) * (((20 : ℕ) : ℚ) + ((0 : ℕ) : ℚ) / 10 ^ (1 : ℕ)) := rfl
    have hr : (processBytes (initProcState 0) "20.0\t50.0\t70.0".data).rh
        = (1 : ℚ) * (((50 : ℕ) : ℚ) + ((0 : ℕ) : ℚ) / 10 ^ (1 : ℕ)) := rfl
    rw [ht, hr]; norm_num)

/-- C2 counterexample: with an empty window (count 0) and only 5 of the
10 configured seconds elapsed, one loop iteration still moves the window
start time to now (the claim asserts nothing changes before the interval
elapses). -/
theorem thlog_C2_counterexample :
    (initProcState 0).valueCount = 0 ∧
    (5 : Int) - (initProcState 0).intvlStart < ((10 : Nat) : Int) ∧
    (processBatch 10 5 [] (initProcState 0)).1.intvlStart = 5 ∧
    (initProcState 0).intvlStart = 0 :=
  ⟨rfl, by decide, rfl, rfl⟩

/-- C2 (amended): after each read batch the loop checks the interval
exactly once, as follows: if the window is empty (accepted count 0), the
window start time is unconditionally reset to now - whether or not the
interval has elapsed - and nothing is emitted; if the window is non-empty
and the interval has not yet elapsed, nothing changes and nothing is
emitted; if the window is non-empty and the interval has elapsed, the
means sum/count are emitted with the current time reference and the
window is reset to sums 0, count 0, start now. -/
theorem thlog_C2 (intvl : Nat) (now : Int) (s : ProcState) :
    (∀ bs, processBatch intvl now bs s = checkInterval intvl now (processBytes s bs)) ∧
    (s.valueCount = 0 → checkInterval intvl now s = ({ s with intvlStart := now }, none)) ∧
    (s.valueCount ≠ 0 → now - s.intvlStart < (intvl : Int) →
       checkInterval intvl now s = (s, none)) ∧
    (s.valueCount ≠ 0 → (intvl : Int) ≤ now - s.intvlStart →
       checkInterval intvl now s =
         ({ s with tempSum := 0, rhSum := 0, valueCount := 0, intvlStart := now },
          some { temp := s.tempSum / (s.valueCount : ℚ)
                 rh := s.rhSum / (s.valueCount : ℚ)
                 time := now })) := by
  refine ⟨fun bs => rfl, fun h0 => ?_, fun hn hlt => ?_, fun hn hge => ?_⟩
  · simp [checkInterval, h0]
  · simp [checkInterval, hn, not_le.mpr hlt]
  · simp [checkInterval, hn, hge]

/-- C4 counterexample: feeding the digit string 0.99999999999999999999
wraps the fraction accumulator below its previous partial value at the
twentieth 9 (premise shown as the first conjunct), yet the parser moves
to PFS_REMAINING - not ERROR_OVERFLOW - keeps the pre-wrap value rather
than a clamped maximum, and a subsequent terminator yields PFS_STOP. -/
theorem thlog_C4_counterexample :
    (9999999999999999999 * 10 + 9) % ulongMod < 9999999999999999999 ∧
    (feedList zeroPFloatCtx "0.99999999999999999999".data).state = .PFS_REMAINING ∧
    (feedList zeroPFloatCtx "0.99999999999999999999".data).fraction = 9999999999999999999 ∧
    (parseFloat (feedList zeroPFloatCtx "0.99999999999999999999".data) '\t').1.state
      = .PFS_STOP := by
  refine ⟨by decide, by decide, by decide, by decide⟩

/-- C4 (amended): on an unsigned multiply-add wrap below the previous
partial value, the error parser result and the format parser width and
precision go to their ERROR_OVERFLOW state with the value clamped to
UINT_MAX; the float parser integral accumulator goes to ERROR_OVERFLOW
but keeps the wrapped value (no clamping); the float parser fraction
accumulator instead keeps the last pre-wrap value, moves to the REMAINING
state, and the token still terminates with PFS_STOP on the next
non-digit. -/
theorem thlog_C4 :
    (∀ (ctx : tPErrCtx) (c : Char), ctx.state = .PES_INTEGRAL → isDigitB c = true →
       (ctx.result * 10 + digitVal c) % uintMod < ctx.result →
       parseErr ctx c = ({ ctx with state := .PES_ERROR_OVERFLOW, result := uintMod - 1 }, 0)) ∧
    (∀ (ctx : tPFmtCtx) (c : Char), ctx.state = .PFMTS_WIDTH → isDigitB c = true →
       (ctx.width * 10 + digitVal c) % uintMod < ctx.width →
       parseFmt ctx c = ({ ctx with state := .PFMTS_ERROR_OVERFLOW, width := uintMod - 1 }, 0)) ∧
    (∀ (ctx : tPFmtCtx) (c : Char), ctx.state = .PFMTS_PRECISION → isDigitB c = true →
       (ctx.precision * 10 + digitVal c) % uintMod < ctx.precision →
       parseFmt ctx c =
         ({ ctx with state := .PFMTS_ERROR_OVERFLOW, precision := uintMod - 1 }, 0)) ∧
    (∀ (ctx : tPFloatCtx) (c : Char), ctx.state = .PFS_INTEGRAL → isDigitB c = true →
       (ctx.integral * 10 + digitVal c) % ulongMod < ctx.integral →
       parseFloat ctx c =
         ({ ctx with
             state := .PFS_ERROR_OVERFLOW
             integral := (ctx.integral * 10 + digitVal c) % ulongMod }, 0)) ∧
    (∀ (ctx : tPFloatCtx) (c : Char), ctx.state = .PFS_FRACTION → isDigitB c = true →
       (ctx.fraction * 10 + digitVal c) % ulongMod < ctx.fraction →
       parseFloat ctx c = ({ ctx with state := .PFS_REMAINING }, 1)) ∧
    (∀ (ctx : tPFloatCtx) (c : Char), ctx.state = .PFS_REMAINING → isDigitB c = false →
       (parseFloat ctx c).1.state = .PFS_STOP) := by
  refine ⟨?_, ?_, ?_, ?_, ?_, ?_⟩
  · intro ctx c h1 h2 h3
    simp [parseErr, h1, h2, h3]
  · intro ctx c h1 h2 h3
    simp [parseFmt, h1, h2, h3]
  · intro ctx c h1 h2 h3
    simp [parseFmt, h1, h2, h3]
  · intro ctx c h1 h2 h3
    simp [parseFloat, floatIntegralStep, h1, h2, h3]
  · intro ctx c h1 h2 h3
    simp [parseFloat, h1, h2, h3]
  · intro ctx c h1 h2
    simp [parseFloat, floatEnd, h1, h2]

/-- Witness for C4: a wrap in each accumulator at a concrete context and
digit, plus the REMAINING-to-STOP termination. -/
theorem thlog_C4_witness :
    parseErr { state := .PES_INTEGRAL, result := 4000000000 } '9'
      = ({ state := .PES_ERROR_OVERFLOW, result := uintMod - 1 }, 0) ∧
    parseFmt { zeroPFmtCtx with state := .PFMTS_WIDTH, width := 4000000000 } '9'
      = ({ zeroPFmtCtx with state := .PFMTS_ERROR_OVERFLOW, width := uintMod - 1 }, 0) ∧
    parseFloat { zeroPFloatCtx with state := .PFS_INTEGRAL, integral := 4000000000000000000 } '9'
      = ({ zeroPFloatCtx with
            state := .PFS_ERROR_OVERFLOW
            integral := (4000000000000000000 * 10 + digitVal '9') % ulongMod }, 0) ∧
    parseFloat { zeroPFloatCtx with state := .PFS_FRACTION, fraction := 4000000000000000000 } '9'
      = ({ zeroPFloatCtx with state := .PFS_REMAINING, fraction := 4000000000000000000 }, 1) ∧
    (parseFloat { zeroPFloatCtx with state := .PFS_REMAINING } '\t').1.state = .PFS_STOP :=
  ⟨thlog_C4.1 { state := .PES_INTEGRAL, result := 4000000000 } '9' rfl (by decide) (by decide),
   thlog_C4.2.1 { zeroPFmtCtx with state := .PFMTS_WIDTH, width := 4000000000 } '9' rfl
     (by decide) (by decide),
   thlog_C4.2.2.2.1
     { zeroPFloatCtx with state := .PFS_INTEGRAL, integral := 4000000000000000000 } '9' rfl
     (by decide) (by decide),
   thlog_C4.2.2.2.2.1
     { zeroPFloatCtx with state := .PFS_FRACTION, fraction := 4000000000000000000 } '9' rfl
     (by decide) (by decide),
   thlog_C4.2.2.2.2.2 { zeroPFloatCtx with state := .PFS_REMAINING } '\t' rfl (by decide)⟩

theorem parseFmt_subtype_bad (ctx : tPFmtCtx) (c : Char) (hst : ctx.state = .PFMTS_SUBTYPE)
    (hc : ¬ (c = 'C' ∨ c = 'F' ∨ c = 'H')) :
    parseFmt ctx c = ({ ctx with state := .PFMTS_ERROR_TOKEN, subType := c }, 0) := by
  simp [parseFmt, hst, hc]

theorem printLoop_subtype_bad (strf : List Char → List Char) (temp rh : ℚ)
    (fmt cs : List Char) (ptr : Nat) (st : PrintSt) (c : Char)
    (hesc : st.esc = false) (hst : st.pFmt.state = .PFMTS_SUBTYPE)
    (hc : ¬ (c = 'C' ∨ c = 'F' ∨ c = 'H')) :
    printLoop strf temp rh fmt (c :: cs) ptr st =
      .error { kind := .fmtBadCode, offset := ptr + 1,
               scanned := fmt.take (ptr + 1), remaining := fmt.drop (ptr + 1) } := by
  have hpf := parseFmt_subtype_bad st.pFmt c hst hc
  simp [printLoop, hesc, hst, hpf]

/-- C7: when the directive parser is in the subtype state entered by type
v and receives any character other than C, F or H, it enters ERROR_TOKEN,
and the renderer turns this into a fatal rendering error reporting the
template offset of the offending character (ptr + 1), the scanned prefix
and the unscanned remainder; in particular rendering the template %vZ LF
fails with offset 3, scanned prefix %vZ and remainder LF. -/
theorem thlog_C7 :
    (∀ (ctx : tPFmtCtx) (c : Char), ctx.state = .PFMTS_SUBTYPE →
       ¬ (c = 'C' ∨ c = 'F' ∨ c = 'H') →
       parseFmt ctx c = ({ ctx with state := .PFMTS_ERROR_TOKEN, subType := c }, 0)) ∧
    (∀ (strf : List Char → List Char) (temp rh : ℚ) (fmt cs : List Char) (ptr : Nat)
       (st : PrintSt) (c : Char), st.esc = false → st.pFmt.state = .PFMTS_SUBTYPE →
       ¬ (c = 'C' ∨ c = 'F' ∨ c = 'H') →
       printLoop strf temp rh fmt (c :: cs) ptr st =
         .error { kind := .fmtBadCode, offset := ptr + 1,
                  scanned := fmt.take (ptr + 1), remaining := fmt.drop (ptr + 1) }) ∧
    printData (fun _ => "X".data) "%vZ\n".data 20 50 =
      .error { kind := .fmtBadCode, offset := 3,
               scanned := ['%', 'v', 'Z'], remaining := ['\n'] } :=
  ⟨parseFmt_subtype_bad, printLoop_subtype_bad, rfl⟩

/-- Witness for C7 at the concrete scan state reached inside the template
%vZ LF right before the subtype character Z. -/
theorem thlog_C7_witness :
    printLoop (fun _ => "X".data) 20 50 "%vZ\n".data ['Z', '\n'] 2
        { out := [], start := 0, last := 'v', esc := false,
          pFmt := { state := .PFMTS_SUBTYPE, flags := 0, width := 0, precision := 0,
                    type := 'v', subType := Char.ofNat 0 } } =
      .error { kind := .fmtBadCode, offset := 3,
               scanned := "%vZ\n".data.take 3, remaining := "%vZ\n".data.drop 3 } :=
  thlog_C7.2.1 (fun _ => "X".data) 20 50 "%vZ\n".data ['\n'] 2
    { out := [], start := 0, last := 'v', esc := false,
      pFmt := { state := .PFMTS_SUBTYPE, flags := 0, width := 0, precision := 0,
                type := 'v', subType := Char.ofNat 0 } } 'Z' rfl rfl (by decide)

theorem printLoop_calendar_cases (strf : List Char → List Char) (temp rh : ℚ)
    (fmt cs : List Char) (ptr : Nat) (st : PrintSt) (c : Char)
    (hesc : st.esc = false) (hmid : st.pFmt.state ≠ .PFMTS_START)
    (hstop : (parseFmt st.pFmt c).1.state = .PFMTS_STOP)
    (htype : (parseFmt st.pFmt c).1.type ≠ 'v')
    (hnl : ¬ ((parseFmt st.pFmt c).1.type = '%' ∧ st.last = '%')) :
    ((st.last = '%' ∨ st.last = '#') →
       (strf (slice fmt st.start (ptr + 1)) = [] →
          printLoop strf temp rh fmt (c :: cs) ptr st =
            .error { kind := .fmtBadCode, offset := ptr + 1,
                     scanned := fmt.take (ptr + 1), remaining := fmt.drop (ptr + 1) }) ∧
       ((strf (slice fmt st.start (ptr + 1))).length ≠ 0 →
          (strf (slice fmt st.start (ptr + 1))).length < 64 →
          printLoop strf temp rh fmt (c :: cs) ptr st =
            printLoop strf temp rh fmt cs (ptr + 1)
              (emitSt { st with esc := false } (strf (slice fmt st.start (ptr + 1))) ptr c))) ∧
    (¬ (st.last = '%' ∨ st.last = '#') →
       printLoop strf temp rh fmt (c :: cs) ptr st =
         .error { kind := .fmtBadCode, offset := ptr + 1,
                  scanned := fmt.take (ptr + 1), remaining := fmt.drop (ptr + 1) }) := by
  refine ⟨fun hl => ⟨fun hz => ?_, fun hnz hlen => ?_⟩, fun hnl2 => ?_⟩
  · simp [printLoop, hesc, hmid, hstop, htype, hnl, hl, hz]
  · have h64 : ¬ (64 ≤ (strf (slice fmt st.start (ptr + 1))).length) := by omega
    simp [printLoop, hesc, hmid, hstop, htype, hnl, hl, hnz, h64]
  · simp [printLoop, hesc, hmid, hstop, htype, hnl, hnl2]

theorem printLoop_value_stop (strf : List Char → List Char) (temp rh : ℚ)
    (fmt cs : List Char) (ptr : Nat) (st : PrintSt) (c : Char)
    (hesc : st.esc = false) (hmid : st.pFmt.state ≠ .PFMTS_START)
    (hstop : (parseFmt st.pFmt c).1.state = .PFMTS_STOP)
    (htype : (parseFmt st.pFmt c).1.type = 'v')
    (hsub : (parseFmt st.pFmt c).1.subType = 'C' ∨ (parseFmt st.pFmt c).1.subType = 'F' ∨
            (parseFmt st.pFmt c).1.subType = 'H')
    (hptr : ptr < 64) :
    printLoop strf temp rh fmt (c :: cs) ptr st =
      printLoop strf temp rh fmt cs (ptr + 1)
        (emitSt { st with esc := false }
          (cPrintfF (slice fmt st.start (ptr - 1) ++ ['f'])
            (sensorValue (parseFmt st.pFmt c).1.subType temp rh))
          ptr c) := by
  have h64 : ¬ (64 ≤ ptr) := by omega
  simp [printLoop, hesc, hmid, hstop, htype, hsub, h64]

theorem fFormat_eval (leftAlign plusF blankF zeroF altF : Bool) (width prec : Nat) (x : ℚ)
    (m : Nat) (hneg : ¬ (x < 0))
    (hm : (Int.floor (|x| * 10 ^ prec + 1 / 2)).toNat = m) :
    fFormat leftAlign plusF blankF zeroF altF width prec x =
      (let ip := m / 10 ^ prec
       let fp := m % 10 ^ prec
       let fracChars :=
         if prec = 0 then (if altF then ['.'] else [])
         else '.' :: padLeft '0' prec (natToDigits fp)
       let body := natToDigits ip ++ fracChars
       let signChars := if plusF then ['+'] else if blankF then [' '] else []
       let unpadded := signChars ++ body
       if width ≤ unpadded.length then unpadded
       else if leftAlign then padRight width unpadded
       else if zeroF then signChars ++ List.replicate (width - unpadded.length) '0' ++ body
       else padLeft ' ' width unpadded) := by
  simp only [fFormat, hm, decide_eq_false hneg, Bool.false_eq_true, if_false]

/-- C5 counterexample: the directive in the template %5Y reaches STOP
with type Y (not v, not the literal-percent case) and the external
formatter returns a non-empty result for every span, yet rendering %5Y is
a fatal syntax error rather than a delegation to the formatter: the
renderer only delegates when the character before the type character is %
or the # flag. -/
theorem thlog_C5_counterexample :
    (parseFmt (feedFmtList zeroPFmtCtx "%5".data) 'Y').1.state = .PFMTS_STOP ∧
    (parseFmt (feedFmtList zeroPFmtCtx "%5".data) 'Y').1.type = 'Y' ∧
    printData (fun _ => "X".data) "%5Y".data 20 50 =
      .error { kind := .fmtBadCode, offset := 3, scanned := "%5Y".data, remaining := [] } :=
  ⟨by decide, by decide, rfl⟩

/-- C5 (amended): for a directive that reaches STOP with a type character
other than v and other than the literal-percent case, the renderer
delegates the full matched span from the opening percent through the type
character to the external time-formatting primitive only when the
character immediately preceding the type character is a percent sign or a
hash flag (i.e. the directive has no width or precision and no final flag
other than hash); in that case a zero-length (or over-long) result from
the primitive is a fatal rendering error, and otherwise the rendered
result is appended. For any other preceding character (width or precision
digits, or flags other than hash) the directive is a fatal syntax error
and is not delegated at all. Concretely, %Y delegates the span %Y, and a
formatter returning an empty result makes %Y fatal. -/
theorem thlog_C5 :
    (∀ (strf : List Char → List Char) (temp rh : ℚ) (fmt cs : List Char) (ptr : Nat)
       (st : PrintSt) (c : Char),
       st.esc = false → st.pFmt.state ≠ .PFMTS_START →
       (parseFmt st.pFmt c).1.state = .PFMTS_STOP →
       (parseFmt st.pFmt c).1.type ≠ 'v' →
       ¬ ((parseFmt st.pFmt c).1.type = '%' ∧ st.last = '%') →
       ((st.last = '%' ∨ st.last = '#') →
          (strf (slice fmt st.start (ptr + 1)) = [] →
             printLoop strf temp rh fmt (c :: cs) ptr st =
               .error { kind := .fmtBadCode, offset := ptr + 1,
                        scanned := fmt.take (ptr + 1), remaining := fmt.drop (ptr + 1) }) ∧
          ((strf (slice fmt st.start (ptr + 1))).length ≠ 0 →
             (strf (slice fmt st.start (ptr + 1))).length < 64 →
             printLoop strf temp rh fmt (c :: cs) ptr st =
               printLoop strf temp rh fmt cs (ptr + 1)
                 (emitSt { st with esc := false }
                   (strf (slice fmt st.start (ptr + 1))) ptr c))) ∧
       (¬ (st.last = '%' ∨ st.last = '#') →
          printLoop strf temp rh fmt (c :: cs) ptr st =
            .error { kind := .fmtBadCode, offset := ptr + 1,
                     scanned := fmt.take (ptr + 1), remaining := fmt.drop (ptr + 1) })) ∧
    printData (fun _ => "2026".data) "%Y".data 20 50 = .ok "2026".data ∧
    printData (fun _ => []) "%Y".data 20 50 =
      .error { kind := .fmtBadCode, offset := 2, scanned := "%Y".data, remaining := [] } :=
  ⟨printLoop_calendar_cases, rfl, rfl⟩

/-- Witness for C5: the delegation case at the concrete state reached
inside the template %Y at its type character. -/
theorem thlog_C5_witness :
    printLoop (fun _ => "2026".data) 20 50 "%Y".data ['Y'] 1
        { out := [], start := 0, last := '%', esc := false,
          pFmt := { state := .PFMTS_FLAG, flags := 0, width := 0, precision := 0,
                    type := Char.ofNat 0, subType := Char.ofNat 0 } } =
      printLoop (fun _ => "2026".data) 20 50 "%Y".data [] 2
        { out := "2026".data, start := 2, last := 'Y', esc := false, pFmt := zeroPFmtCtx } :=
  ((thlog_C5.1 (fun _ => "2026".data) 20 50 "%Y".data [] 1
      { out := [], start := 0, last := '%', esc := false,
        pFmt := { state := .PFMTS_FLAG, flags := 0, width := 0, precision := 0,
                  type := Char.ofNat 0, subType := Char.ofNat 0 } } 'Y'
      rfl (by decide) (by decide) (by decide) (by decide)).1
    (Or.inl rfl)).2 (by decide) (by decide)

/-- C6: on directive STOP with type v, the renderer emits the sensor
value selected by the subtype - temperature for C, temperature times 1.8
plus 32 for F, humidity for H - formatted by a synthesized directive that
keeps the scanned flags, width and precision and replaces the type with
the floating-point conversion f; rendering the template %.1vC TAB %.1vH
LF (with backslash escapes) at temperature 20 and humidity 50 produces
20.0 TAB 50.0 LF, and rendering %.1vF LF at temperature 20 produces
68.0 LF. -/
theorem thlog_C6 :
    (∀ (strf : List Char → List Char) (temp rh : ℚ) (fmt cs : List Char) (ptr : Nat)
       (st : PrintSt) (c : Char),
       st.esc = false → st.pFmt.state ≠ .PFMTS_START →
       (parseFmt st.pFmt c).1.state = .PFMTS_STOP →
       (parseFmt st.pFmt c).1.type = 'v' →
       ((parseFmt st.pFmt c).1.subType = 'C' ∨ (parseFmt st.pFmt c).1.subType = 'F' ∨
        (parseFmt st.pFmt c).1.subType = 'H') →
       ptr < 64 →
       printLoop strf temp rh fmt (c :: cs) ptr st =
         printLoop strf temp rh fmt cs (ptr + 1)
           (emitSt { st with esc := false }
             (cPrintfF (slice fmt st.start (ptr - 1) ++ ['f'])
               (sensorValue (parseFmt st.pFmt c).1.subType temp rh))
             ptr c)) ∧
    sensorValue 'C' 20 50 = 20 ∧ sensorValue 'H' 20 50 = 50 ∧ sensorValue 'F' 20 0 = 68 ∧
    printData (fun _ => "X".data) "%.1vC\\t%.1vH\\n".data 20 50 = .ok "20.0\t50.0\n".data ∧
    printData (fun _ => "X".data) "%.1vF\\n".data 20 0 = .ok "68.0\n".data := by
  have h20 : cPrintfF ['%', '.', '1', 'f'] (20 : ℚ) = "20.0".data := by
    have h0 : cPrintfF ['%', '.', '1', 'f'] (20 : ℚ)
        = fFormat false false false false false 0 1 20 := rfl
    have hfl : Int.floor (|(20 : ℚ)| * 10 ^ (1 : ℕ) + 1 / 2) = 200 := by norm_num
    have hm : (Int.floor (|(20 : ℚ)| * 10 ^ (1 : ℕ) + 1 / 2)).toNat = 200 := by rw [hfl]; rfl
    rw [h0, fFormat_eval false false false false false 0 1 20 200 (by norm_num) hm]
    decide
  have h50 : cPrintfF ['%', '.', '1', 'f'] (50 : ℚ) = "50.0".data := by
    have h0 : cPrintfF ['%', '.', '1', 'f'] (50 : ℚ)
        = fFormat false false false false false 0 1 50 := rfl
    have hfl : Int.floor (|(50 : ℚ)| * 10 ^ (1 : ℕ) + 1 / 2) = 500 := by norm_num
    have hm : (Int.floor (|(50 : ℚ)| * 10 ^ (1 : ℕ) + 1 / 2)).toNat = 500 := by rw [hfl]; rfl
    rw [h0, fFormat_eval false false false false false 0 1 50 500 (by norm_num) hm]
    decide
  have h68 : cPrintfF ['%', '.', '1', 'f'] (68 : ℚ) = "68.0".data := by
    have h0 : cPrintfF ['%', '.', '1', 'f'] (68 : ℚ)
        = fFormat false false false false false 0 1 68 := rfl
    have hfl : Int.floor (|(68 : ℚ)| * 10 ^ (1 : ℕ) + 1 / 2) = 680 := by norm_num
    have hm : (Int.floor (|(68 : ℚ)| * 10 ^ (1 : ℕ) + 1 / 2)).toNat = 680 := by rw [hfl]; rfl
    rw [h0, fFormat_eval false false false false false 0 1 68 680 (by norm_num) hm]
    decide
  have hsF : sensorValue 'F' (20 : ℚ) 0 = 68 := by
    rw [show sensorValue 'F' (20 : ℚ) 0 = 20 * (9 / 5) + 32 from rfl]
    norm_num
  have hF : cPrintfF ['%', '.', '1', 'f'] (sensorValue 'F' (20 : ℚ) 0) = "68.0".data := by
    rw [hsF, h68]
  refine ⟨printLoop_value_stop, rfl, rfl, hsF, ?_, ?_⟩
  · simp +decide [printData, printLoop, parseFmt, fmtOnType, escMap, emitSt, slice,
      zeroPFmtCtx, fmtTypeChars, isDigitB, digitVal, sensorValue, h20, h50]
  · simp +decide [printData, printLoop, parseFmt, fmtOnType, escMap, emitSt, slice,
      zeroPFmtCtx, fmtTypeChars, isDigitB, digitVal, hF]

/-- Witness for the general conjunct of C6 at the concrete state reached
inside the template %vC at its subtype character. -/
theorem thlog_C6_witness :
    printLoop (fun _ => "X".data) 20 50 "%vC".data ['C'] 2
        { out := [], start := 0, last := 'v', esc := false,
          pFmt := { state := .PFMTS_SUBTYPE, flags := 0, width := 0, precision := 0,
                    type := 'v', subType := Char.ofNat 0 } } =
      printLoop (fun _ => "X".data) 20 50 "%vC".data [] 3
        { out := cPrintfF ['%', 'f'] (sensorValue 'C' 20 50), start := 3, last := 'C',
          esc := false, pFmt := zeroPFmtCtx } :=
  thlog_C6.1 (fun _ => "X".data) 20 50 "%vC".data [] 2
    { out := [], start := 0, last := 'v', esc := false,
      pFmt := { state := .PFMTS_SUBTYPE, flags := 0, width := 0, precision := 0,
                type := 'v', subType := Char.ofNat 0 } } 'C'
    rfl (by decide) (by decide) (by decide) (Or.inl (by decide)) (by decide)

theorem feedList_zero_token (neg : Bool) (ds : List Char) (rest : List Char)
    (hne : ds ≠ []) (hds : ∀ c ∈ ds, isDigitB c = true) :
    feedList zeroPFloatCtx ((cond neg ['-'] []) ++ ds ++ rest)
      = feedList (signedStartCtx (cond neg (-1) 1)) (ds ++ rest) := by
  cases neg
  · rcases ds with _ | ⟨d0, ds'⟩
    · exact absurd rfl hne
    · have hd0 : isDigitB d0 = true := hds d0 (List.mem_cons_self _ _)
      show feedList zeroPFloatCtx (d0 :: (ds' ++ rest)) = _
      rw [feedList_cons, parseFloat_start_digit d0 hd0]
      rfl
  · show feedList zeroPFloatCtx ('-' :: (ds ++ rest)) = _
    rw [feedList_cons]
    rfl

theorem stepByte_stop_resets (s : ProcState) (c : Char)
    (hstop : (parseFloat s.pFloat c).1.state = .PFS_STOP) :
    (stepByte s c).pErr = zeroPErrCtx ∧ (stepByte s c).pFloat = zeroPFloatCtx := by
  simp only [stepByte, hstop]
  split_ifs <;> simp

/-- C3 counterexample: the all-digit string 18446744073709551616 (2^64)
matches the pattern of an optional sign, digits, optional fraction, yet
the parser wraps its integral accumulator, reaches PFS_ERROR_OVERFLOW
before the terminator, and never stops on the terminating tab. -/
theorem thlog_C3_counterexample :
    (∀ c ∈ "18446744073709551616".data, isDigitB c = true) ∧
    (feedList zeroPFloatCtx "18446744073709551616".data).state = .PFS_ERROR_OVERFLOW ∧
    (parseFloat (feedList zeroPFloatCtx "18446744073709551616".data) '\t').1.state
      ≠ .PFS_STOP := by
  refine ⟨by decide, by decide, by decide⟩

/-- C3 (amended): for every string matching an optional minus sign,
integral digits, and an optional dot-separated fraction, whose integral
and fractional digit strings each denote a value below 2^64 (so that the
unsigned accumulators do not wrap), fed character by character to
parseFloat from a zero-initialised context and followed by one character
fitting neither the current part nor a first dot: the parser has not
stopped before that character, reaches PFS_STOP exactly on it with result
sign times (integral plus fraction over 10^digit-count) - the exact
decimal value of the string in the rational model - the terminating call
consumes the character (returns 0), the stopped context ignores all
further characters, and in the reconstruction loop the terminating byte
leaves the error parser reset, so it is not reflected in any other
parser's state. -/
theorem thlog_C3 (neg : Bool) (ds : List Char) (fr : Option (List Char)) (t : Char)
    (hds : ∀ c ∈ ds, isDigitB c = true) (hne : ds ≠ [])
    (hfr : ∀ fs, fr = some fs → (∀ c ∈ fs, isDigitB c = true) ∧ fs ≠ [])
    (hiv : natVal ds < ulongMod)
    (hfv : natVal (fr.getD []) < ulongMod)
    (ht : isDigitB t = false) (htd : fr = none → t ≠ '.') :
    (feedList zeroPFloatCtx (floatTokenChars neg ds fr)).state ≠ .PFS_STOP ∧
    (parseFloat (feedList zeroPFloatCtx (floatTokenChars neg ds fr)) t).1.state = .PFS_STOP ∧
    (parseFloat (feedList zeroPFloatCtx (floatTokenChars neg ds fr)) t).1.result
      = some (floatTokenVal neg ds fr) ∧
    (parseFloat (feedList zeroPFloatCtx (floatTokenChars neg ds fr)) t).2 = 0 ∧
    (∀ c, parseFloat (parseFloat (feedList zeroPFloatCtx (floatTokenChars neg ds fr)) t).1 c
       = ((parseFloat (feedList zeroPFloatCtx (floatTokenChars neg ds fr)) t).1, 0)) ∧
    (∀ s : ProcState, s.pFloat = feedList zeroPFloatCtx (floatTokenChars neg ds fr) →
       (stepByte s t).pErr = zeroPErrCtx ∧ (stepByte s t).pFloat = zeroPFloatCtx) := by
  rcases fr with _ | fs
  · have hchain : feedList zeroPFloatCtx (floatTokenChars neg ds none)
        = { signedStartCtx (cond neg (-1) 1) with integral := natVal ds } := by
      have h2 : floatTokenChars neg ds none = (cond neg ['-'] []) ++ ds ++ [] := rfl
      rw [h2, feedList_zero_token neg ds [] hne hds]
      have h3 : (ds ++ [] : List Char) = ds := by simp
      rw [h3]
      exact feedList_integral_digits ds (signedStartCtx (cond neg (-1) 1)) rfl hds hiv
    have hstop := parseFloat_integral_stop
      { signedStartCtx (cond neg (-1) 1) with integral := natVal ds } t rfl ht (htd rfl)
    rw [hchain, hstop]
    refine ⟨by simp [signedStartCtx], rfl, ?_, rfl, fun c => parseFloat_stop_noop _ c rfl, ?_⟩
    · simp [floatTokenVal, signedStartCtx, natVal, accNat]
    · intro s hs
      exact stepByte_stop_resets s t (by rw [hs, hstop])
  · obtain ⟨hfsd, hfsne⟩ := hfr fs rfl
    have hchain : feedList zeroPFloatCtx (floatTokenChars neg ds (some fs))
        = { signedStartCtx (cond neg (-1) 1) with
             state := .PFS_FRACTION, integral := natVal ds,
             fraction := natVal fs, digits := fs.length } := by
      have h1 : feedList zeroPFloatCtx (floatTokenChars neg ds (some fs))
          = feedList (signedStartCtx (cond neg (-1) 1)) (ds ++ ('.' :: fs)) :=
        feedList_zero_token neg ds ('.' :: fs) hne hds
      have h3 : feedList (signedStartCtx (cond neg (-1) 1)) ds
          = { signedStartCtx (cond neg (-1) 1) with integral := natVal ds } :=
        feedList_integral_digits ds (signedStartCtx (cond neg (-1) 1)) rfl hds hiv
      have h4 : parseFloat
            ({ signedStartCtx (cond neg (-1) 1) with integral := natVal ds } : tPFloatCtx) '.'
          = ({ signedStartCtx (cond neg (-1) 1) with
               state := .PFS_FRACTION, integral := natVal ds }, 1) :=
        parseFloat_integral_dot
          { signedStartCtx (cond neg (-1) 1) with integral := natVal ds } rfl
      have haccf : accNat ({ signedStartCtx (cond neg (-1) 1) with
            state := .PFS_FRACTION, integral := natVal ds } : tPFloatCtx).fraction fs
            < ulongMod := hfv
      have h5 := feedList_fraction_digits fs
        { signedStartCtx (cond neg (-1) 1) with state := .PFS_FRACTION, integral := natVal ds }
        rfl hfsd haccf
      rw [h1, feedList_append, h3, feedList_cons, h4]
      show feedList ({ signedStartCtx (cond neg (-1) 1) with
          state := .PFS_FRACTION, integral := natVal ds } : tPFloatCtx) fs = _
      rw [h5]
      simp [signedStartCtx, natVal]
    have hstop := parseFloat_fraction_stop
      { signedStartCtx (cond neg (-1) 1) with
         state := .PFS_FRACTION, integral := natVal ds,
         fraction := natVal fs, digits := fs.length } t rfl ht
    rw [hchain, hstop]
    refine ⟨by simp [signedStartCtx], rfl, ?_, rfl, fun c => parseFloat_stop_noop _ c rfl, ?_⟩
    · simp [floatTokenVal, signedStartCtx]
    · intro s hs
      exact stepByte_stop_resets s t (by rw [hs, hstop])

/-- Witness for C3 at the concrete token -3.25 terminated by TAB. -/
theorem thlog_C3_witness :
    (feedList zeroPFloatCtx (floatTokenChars true ['3'] (some ['2', '5']))).state
      ≠ .PFS_STOP ∧
    (parseFloat (feedList zeroPFloatCtx (floatTokenChars true ['3'] (some ['2', '5'])))
        '\t').1.state = .PFS_STOP ∧
    (parseFloat (feedList zeroPFloatCtx (floatTokenChars true ['3'] (some ['2', '5'])))
        '\t').1.result = some (floatTokenVal true ['3'] (some ['2', '5'])) ∧
    (parseFloat (feedList zeroPFloatCtx (floatTokenChars true ['3'] (some ['2', '5'])))
        '\t').2 = 0 :=
  ⟨(thlog_C3 true ['3'] (some ['2', '5']) '\t' (by decide) (by decide)
      (fun fs h => by cases h; exact ⟨by decide, by decide⟩) (by decide) (by decide)
      (by decide) (fun h => by cases h)).1,
   (thlog_C3 true ['3'] (some ['2', '5']) '\t' (by decide) (by decide)
      (fun fs h => by cases h; exact ⟨by decide, by decide⟩) (by decide) (by decide)
      (by decide) (fun h => by cases h)).2.1,
   (thlog_C3 true ['3'] (some ['2', '5']) '\t' (by decide) (by decide)
      (fun fs h => by cases h; exact ⟨by decide, by decide⟩) (by decide) (by decide)
      (by decide) (fun h => by cases h)).2.2.1,
   (thlog_C3 true ['3'] (some ['2', '5']) '\t' (by decide) (by decide)
      (fun fs h => by cases h; exact ⟨by decide, by decide⟩) (by decide) (by decide)
      (by decide) (fun h => by cases h)).2.2.2.1⟩

/-- Witness for C2: a non-empty window of two accepted records with sums
40/100 at an elapsed interval emits means 20/50 and resets the window. -/
theorem thlog_C2_witness :
    checkInterval 10 12
        { initProcState 0 with tempSum := 40, rhSum := 100, valueCount := 2 } =
      ({ { initProcState 0 with tempSum := 40, rhSum := 100, valueCount := 2 } with
          tempSum := 0, rhSum := 0, valueCount := 0, intvlStart := 12 },
       some { temp := ({ initProcState 0 with
                          tempSum := 40, rhSum := 100, valueCount := 2 } : ProcState).tempSum
                        / ((2 : Nat) : ℚ)
              rh := ({ initProcState 0 with
                        tempSum := 40, rhSum := 100, valueCount := 2 } : ProcState).rhSum
                      / ((2 : Nat) : ℚ)
              time := 12 }) :=
  (thlog_C2 10 12 { initProcState 0 with tempSum := 40, rhSum := 100, valueCount := 2 }).2.2.2
    (by decide) (by decide)

/-- C8: for every carriage-return or line-feed byte, after the per-byte
loop of processData handles that byte both the float parser and the error
parser contexts are back to their zero-initialised START state and the
record field cycle is back at the temperature position, whatever the
previous state was. -/
theorem thlog_C8 (s : ProcState) (c : Char) (h : c = '\r' ∨ c = '\n') :
    (stepByte s c).pFloat = zeroPFloatCtx ∧ (stepByte s c).pErr = zeroPErrCtx ∧
    (stepByte s c).pState = .ST_TEMP := by
  unfold stepByte
  rw [if_pos h]
  exact ⟨rfl, rfl, rfl⟩

/-- Witness for C8 at the concrete byte LF in the initial state. -/
theorem thlog_C8_witness :
    (stepByte (initProcState 0) '\n').pFloat = zeroPFloatCtx ∧
    (stepByte (initProcState 0) '\n').pErr = zeroPErrCtx ∧
    (stepByte (initProcState 0) '\n').pState = .ST_TEMP :=
  thlog_C8 (initProcState 0) '\n' (Or.inr rfl)

/-- C9: resetting any parser context (the memset-to-zero reset used by
processData and printData) and feeding any character sequence yields
exactly the same final context - state and result fields included - as
feeding the same sequence to a freshly zero-initialised context. -/
theorem thlog_C9 (old : tPFloatCtx) (oldE : tPErrCtx) (oldF : tPFmtCtx) (cs : List Char) :
    feedList (resetFloat old) cs = feedList zeroPFloatCtx cs ∧
    feedErrList (resetErr oldE) cs = feedErrList zeroPErrCtx cs ∧
    feedFmtList (resetFmt oldF) cs = feedFmtList zeroPFmtCtx cs :=
  ⟨rfl, rfl, rfl⟩

/-- C10: a lone minus sign followed by any character that is neither a
digit nor a dot is accepted by parseFloat as a complete token: the parser
reaches PFS_STOP with result zero (the float negative zero, which equals
zero as a rational), and in the reconstruction loop such a token advances
the field cycle, storing temperature 0. -/
theorem thlog_C10 (t : Char) (hd : isDigitB t = false) (hdot : t ≠ '.') :
    (parseFloat (parseFloat zeroPFloatCtx '-').1 t).1.state = .PFS_STOP ∧
    (parseFloat (parseFloat zeroPFloatCtx '-').1 t).1.result = some 0 ∧
    (parseFloat (parseFloat zeroPFloatCtx '-').1 t).2 = 0 ∧
    (processBytes (initProcState 0) ['-', '\t']).pState = .ST_RH ∧
    (processBytes (initProcState 0) ['-', '\t']).temp = 0 := by
  have h1 : (parseFloat zeroPFloatCtx '-').1 = signedStartCtx (-1) := rfl
  rw [h1, parseFloat_integral_stop (signedStartCtx (-1)) t rfl hd hdot]
  have htemp : (processBytes (initProcState 0) ['-', '\t']).temp = (-1 : ℚ) * ((0 : Nat) : ℚ) :=
    rfl
  refine ⟨rfl, ?_, rfl, by decide, ?_⟩
  · simp [signedStartCtx]
  · rw [htemp]; simp

/-- Witness for C10 at the concrete terminator TAB. -/
theorem thlog_C10_witness :
    (parseFloat (parseFloat zeroPFloatCtx '-').1 '\t').1.state = .PFS_STOP ∧
    (parseFloat (parseFloat zeroPFloatCtx '-').1 '\t').1.result = some 0 ∧
    (parseFloat (parseFloat zeroPFloatCtx '-').1 '\t').2 = 0 ∧
    (processBytes (initProcState 0) ['-', '\t']).pState = .ST_RH ∧
    (processBytes (initProcState 0) ['-', '\t']).temp = 0 :=
  thlog_C10 '\t' (by decide) (by decide)

end Thlog
